import Mathlib

/-!
Verification of the signal-generation, position-sizing and risk-gating core
of a prediction-market trading bot, shallowly embedded over `ℚ`.

The definitions mirror, function by function, the Python sources:
`src/strategy/kelly.py`, `src/strategy/mispricing.py`, `src/trading/risk.py`,
`src/trading/positions.py`, `src/ai/deepseek_validator.py` and the exit
scans of `main.py`.  Python floats are modelled as rationals; Python dicts
keyed by market id as association lists with dict-style insertion.
-/

namespace PolyBot

/-- Round-half-to-even on rationals, mirroring Python's built-in `round`
applied to an exact value (ties go to the even integer). -/
def roundQ (y : ℚ) : ℤ :=
  if y - ⌊y⌋ < 1/2 then ⌊y⌋
  else if 1/2 < y - ⌊y⌋ then ⌊y⌋ + 1
  else if ⌊y⌋ % 2 = 0 then ⌊y⌋ else ⌊y⌋ + 1

/-- Python's `round(x, d)`: round to `d` decimal digits. -/
def roundTo (d : ℕ) (x : ℚ) : ℚ := (roundQ (x * 10 ^ d) : ℚ) / 10 ^ d

theorem roundQ_le (y : ℚ) : (roundQ y : ℚ) ≤ y + 1/2 := by
  unfold roundQ
  have hfl : (⌊y⌋ : ℚ) ≤ y := Int.floor_le y
  have hlt : y < ⌊y⌋ + 1 := Int.lt_floor_add_one y
  split
  · linarith
  · split
    · push_cast; linarith
    · split <;> (push_cast; linarith)

theorem le_roundQ (y : ℚ) : y - 1/2 ≤ (roundQ y : ℚ) := by
  unfold roundQ
  have hfl : (⌊y⌋ : ℚ) ≤ y := Int.floor_le y
  have hlt : y < ⌊y⌋ + 1 := Int.lt_floor_add_one y
  split
  · rename_i h; linarith
  · split
    · push_cast; linarith
    · split <;> (push_cast; linarith)

theorem floor_le_roundQ (y : ℚ) : ⌊y⌋ ≤ roundQ y := by
  unfold roundQ
  split
  · exact le_refl _
  · split
    · exact Int.le.intro 1 rfl
    · split
      · exact le_refl _
      · exact Int.le.intro 1 rfl

/-- `round(x, 2)` moves the value by at most half a cent. -/
theorem roundTo_two_le (x : ℚ) : roundTo 2 x ≤ x + 1/200 := by
  unfold roundTo
  rw [div_le_iff₀ (by norm_num : (0:ℚ) < 10 ^ 2)]
  have := roundQ_le (x * 10 ^ 2)
  nlinarith [this]

theorem le_roundTo_two (x : ℚ) : x - 1/200 ≤ roundTo 2 x := by
  unfold roundTo
  rw [le_div_iff₀ (by norm_num : (0:ℚ) < 10 ^ 2)]
  have := le_roundQ (x * 10 ^ 2)
  nlinarith [this]

theorem one_le_roundTo_two (x : ℚ) (hx : 1 ≤ x) : 1 ≤ roundTo 2 x := by
  unfold roundTo
  rw [le_div_iff₀ (by norm_num : (0:ℚ) < 10 ^ 2)]
  have h100 : (100 : ℤ) ≤ ⌊x * 10 ^ 2⌋ := by
    have : (100 : ℚ) ≤ x * 10 ^ 2 := by nlinarith
    exact_mod_cast Int.le_floor.mpr (by exact_mod_cast this)
  have := floor_le_roundQ (x * 10 ^ 2)
  have : (100 : ℤ) ≤ roundQ (x * 10 ^ 2) := le_trans h100 this
  calc (1 : ℚ) * 10 ^ 2 = 100 := by norm_num
    _ ≤ (roundQ (x * 10 ^ 2) : ℚ) := by exact_mod_cast this

/-! ## Kelly engine — `src/strategy/kelly.py` -/

/-- Trade direction strings `"BUY_YES"` / `"BUY_NO"` of the source. -/
inductive Direction
  | buyYes
  | buyNo
deriving DecidableEq, Repr

/-- Outcome-token side strings `"YES"` / `"NO"`. -/
inductive TokenSide
  | yes
  | no
deriving DecidableEq, Repr

/-- Order side strings `"BUY"` / `"SELL"` / `"NONE"` of the result dict. -/
inductive OrderSide
  | buy
  | sell
  | noneSide
deriving DecidableEq, Repr

namespace Kelly

/-- The two `settings` fields read by `KellySizer.__init__`. -/
structure Config where
  max_fraction : ℚ
  multiplier : ℚ
deriving Repr

/-- `KellySizer._get_survival_multiplier`. -/
def survivalMultiplier (balance : ℚ) : ℚ :=
  if balance < 10 then 2/5
  else if balance < 50 then 7/10
  else if balance < 200 then 1
  else 6/5

/-- `KellySizer._get_time_bonus`. -/
def timeBonus (hours_to_expiry : ℚ) : ℚ :=
  if hours_to_expiry ≤ 6 then 3/2
  else if hours_to_expiry ≤ 24 then 13/10
  else if hours_to_expiry ≤ 72 then 11/10
  else 1

/-- The dict returned by `KellySizer.calculate`. -/
structure Result where
  position_size : ℚ
  shares : ℚ
  kelly_fraction : ℚ
  adjusted_fraction : ℚ
  price : ℚ
  side : OrderSide
  token_side : TokenSide
deriving DecidableEq, Repr

/-- `KellySizer._zero_result`. -/
def zeroResult (price : ℚ) (direction : Direction) : Result :=
  { position_size := 0
    shares := 0
    kelly_fraction := 0
    adjusted_fraction := 0
    price := price
    side := OrderSide.noneSide
    token_side := if direction = Direction.buyYes then TokenSide.yes else TokenSide.no }

/-- `KellySizer.calculate`.  Working probability and price are mapped by
direction; the dynamic (sniper), confidence, expensive-entry, survival and
time multipliers are computed; the raw Kelly fraction `edge / oddsReturn`
is capped at `max_fraction` and sizes the position, while
`adjusted_fraction` (raw Kelly × all multipliers) is only reported. -/
def calculate (cfg : Config) (fair_value market_price balance : ℚ)
    (direction : Direction) (confidence hours_to_expiry : ℚ) : Result :=
  let p := if direction = Direction.buyYes then fair_value else 1 - fair_value
  let price := if direction = Direction.buyYes then market_price else 1 - market_price
  let edge := p - price
  let base_multiplier := cfg.multiplier
  let dyn1 := if 15/100 ≤ edge then 1 else base_multiplier
  let dyn2 := if confidence < 60/100 then dyn1 * (1/2) else dyn1
  let dynamic_multiplier := if 85/100 < price then dyn2 * (7/10) else dyn2
  let survival_mult := survivalMultiplier balance
  let time_mult := timeBonus hours_to_expiry
  if edge ≤ 0 then zeroResult price direction
  else if price ≤ 1/100 then zeroResult price direction
  else if 99/100 ≤ price then zeroResult price direction
  else
    let odds_return := (1 - price) / price
    if odds_return ≤ 0 then zeroResult price direction
    else
      let kelly_fraction := edge / odds_return
      let adjusted_fraction := kelly_fraction * dynamic_multiplier * survival_mult * time_mult
      let kelly_fraction₂ := min kelly_fraction cfg.max_fraction
      let position_size := balance * kelly_fraction₂
      let position_size₂ := if position_size < 1 then 0 else position_size
      let shares := if 0 < price then position_size₂ / price else 0
      { position_size := roundTo 2 position_size₂
        shares := roundTo 1 shares
        kelly_fraction := roundTo 4 kelly_fraction₂
        adjusted_fraction := roundTo 4 adjusted_fraction
        price := price
        side :=
          if direction = Direction.buyYes ∨ direction = Direction.buyNo then OrderSide.buy
          else OrderSide.sell
        token_side := if direction = Direction.buyYes then TokenSide.yes else TokenSide.no }

/-- Position size as the specification's §4.3 (steps 5–6) words it:
`adjustedFraction = min(rawKellyFraction × Π(multipliers), maxKellyFraction)`,
`positionSizeUsd = accountBalance × adjustedFraction`, treated as zero below
one dollar.  Stated for comparison with `Kelly.calculate`, which is
translated from the source. -/
def specPositionSize (cfg : Config) (fair_value market_price balance : ℚ)
    (direction : Direction) (confidence hours_to_expiry : ℚ) : ℚ :=
  let p := if direction = Direction.buyYes then fair_value else 1 - fair_value
  let price := if direction = Direction.buyYes then market_price else 1 - market_price
  let edge := p - price
  let base_multiplier := cfg.multiplier
  let dyn1 := if 15/100 ≤ edge then 1 else base_multiplier
  let dyn2 := if confidence < 60/100 then dyn1 * (1/2) else dyn1
  let dynamic_multiplier := if 85/100 < price then dyn2 * (7/10) else dyn2
  let rawKelly := edge / ((1 - price) / price)
  let adjustedFraction :=
    min (rawKelly * dynamic_multiplier * survivalMultiplier balance * timeBonus hours_to_expiry)
      cfg.max_fraction
  let sizeUsd := balance * adjustedFraction
  if sizeUsd < 1 then 0 else sizeUsd

end Kelly

/-! ## Trade signals — `src/strategy/mispricing.py` -/

/-- The `TradeSignal` dataclass. -/
structure TradeSignal where
  market_id : String
  question : String
  category : String
  direction : Direction
  fair_value : ℚ
  market_price : ℚ
  edge : ℚ
  confidence : ℚ
  position_size : ℚ
  shares : ℚ
  price : ℚ
  token_side : TokenSide
  reasoning : String
  kelly_fraction : ℚ
  api_cost : ℚ
  slug : String
  deepseek_fair_value : ℚ
  consensus : Bool
  combined_fair_value : ℚ
  entry_price : ℚ
deriving DecidableEq, Repr

namespace Mispricing

/-- Market fields used when the signal is assembled. -/
structure MarketInfo where
  id : String
  question : String
  category : String
  slug : String
deriving DecidableEq, Repr

/-- The V3.7 confidence-boost multiplier of
`MispricingStrategy.analyze_market`: ×2 / ×1.5 under dual-AI consensus at
confidence ≥ 0.90 / ≥ 0.80, ×1.3 for a solo estimate at ≥ 0.85. -/
def confidenceBoost (confidence : ℚ) (consensus : Bool) (deepseek_fv : ℚ) : ℚ :=
  if consensus ∧ 0 < deepseek_fv then
    if 90/100 ≤ confidence then 2
    else if 80/100 ≤ confidence then 3/2
    else 1
  else if 85/100 ≤ confidence then 13/10
  else 1

/-- The sizing tail of `MispricingStrategy.analyze_market` (steps 5–6 of the
pipeline): the adaptive multiplier `kelly_multiplier / 0.5`, the dual-AI /
high-confidence boost, the hard caps at 20 % of cash and
`cash × max_kelly_fraction`, the sub-dollar cutoff, and the assembly of the
returned `TradeSignal`.  `none` models `return None`. -/
def analyzeMarketSizing (max_kelly_fraction : ℚ) (market : MarketInfo)
    (direction : Direction) (fair_value yes_price edge confidence : ℚ)
    (reasoning : String) (api_cost deepseek_fv : ℚ) (consensus : Bool)
    (combined_fv : ℚ) (kelly_result : Kelly.Result)
    (cash kelly_multiplier : ℚ) : Option TradeSignal :=
  let original_size := kelly_result.position_size
  let adjusted₁ := original_size * (kelly_multiplier / (1/2))
  let adjusted₂ := adjusted₁ * confidenceBoost confidence consensus deepseek_fv
  let adjusted₃ := min adjusted₂ (cash * (20/100))
  let adjusted₄ := min adjusted₃ (cash * max_kelly_fraction)
  if adjusted₄ < 1 then none
  else
    let price := kelly_result.price
    let adjusted_shares := if 0 < price then adjusted₄ / price else 0
    some
      { market_id := market.id
        question := market.question
        category := market.category
        direction := direction
        fair_value := fair_value
        market_price := yes_price
        edge := edge
        confidence := confidence
        position_size := roundTo 2 adjusted₄
        shares := roundTo 2 adjusted_shares
        price := price
        token_side := kelly_result.token_side
        reasoning := reasoning
        kelly_fraction := kelly_result.adjusted_fraction
        api_cost := api_cost
        slug := market.slug
        deepseek_fair_value := deepseek_fv
        consensus := consensus
        combined_fair_value := combined_fv
        entry_price := price }

end Mispricing

/-! ## Dual-AI consensus — `src/ai/deepseek_validator.py` -/

namespace Consensus

/-- Recommendation strings `"TRADE"` / `"REDUCE"` / `"SKIP"`. -/
inductive Recommendation
  | trade
  | reduce
  | skip
deriving DecidableEq, Repr

/-- The dict returned by `DeepSeekValidator._check_consensus`. -/
structure Result where
  consensus : Bool
  deepseek_probability : ℚ
  claude_probability : ℚ
  direction_match : Bool
  confidence_avg : ℚ
  recommendation : Recommendation
  combined_probability : ℚ
  prob_difference : ℚ
deriving DecidableEq, Repr

/-- `DeepSeekValidator._check_consensus`. -/
def checkConsensus (claude_p claude_c ds_p ds_c market_price : ℚ) : Result :=
  let claude_direction := if market_price < claude_p then TokenSide.yes else TokenSide.no
  let ds_direction := if market_price < ds_p then TokenSide.yes else TokenSide.no
  let direction_match := decide (claude_direction = ds_direction)
  let prob_diff := |claude_p - ds_p|
  let total_conf := claude_c + ds_c
  let combined :=
    if 0 < total_conf then (claude_p * claude_c + ds_p * ds_c) / total_conf
    else (claude_p + ds_p) / 2
  let avg_conf := (claude_c + ds_c) / 2
  let rc : Recommendation × Bool :=
    if direction_match = false then (Recommendation.skip, false)
    else if prob_diff ≤ 15/100 then (Recommendation.trade, true)
    else if prob_diff ≤ 30/100 then (Recommendation.reduce, true)
    else (Recommendation.skip, false)
  { consensus := rc.2
    deepseek_probability := ds_p
    claude_probability := claude_p
    direction_match := direction_match
    confidence_avg := roundTo 4 avg_conf
    recommendation := rc.1
    combined_probability := roundTo 4 combined
    prob_difference := roundTo 4 prob_diff }

end Consensus

/-! ## Risk gate — `src/trading/risk.py` -/

namespace Risk

/-- The `settings` fields read by `RiskManager`, together with the two
constants fixed in `RiskManager.__init__` (`max_daily_trades = 30`,
`min_trade_cash = 2.0`). -/
structure Config where
  survival_balance : ℚ
  daily_loss_limit : ℚ
  max_daily_trades : ℕ
  min_trade_cash : ℚ
  max_kelly_fraction : ℚ
  mispricing_threshold : ℚ
deriving Repr

/-- Mutable counters of `RiskManager`. -/
structure State where
  daily_loss : ℚ
  daily_trades : ℕ
  last_reset : ℚ
deriving DecidableEq, Repr

/-- Tags for the human-readable reason strings of `is_trade_allowed`. -/
inductive Reason
  | survivalMode
  | dailyLossLimit
  | dailyTradeLimit
  | insufficientCash
  | sizeOverAvailable
  | minLotTooBig
  | singleTradeLimit
  | edgeTooLow
  | confidenceTooLow
  | approved
deriving DecidableEq, Repr

/-- `RiskManager._maybe_reset_daily`. -/
def maybeResetDaily (now : ℚ) (st : State) : State :=
  if 86400 < now - st.last_reset then { daily_loss := 0, daily_trades := 0, last_reset := now }
  else st

/-- Checks 6–8 of `RiskManager.is_trade_allowed` (the code the minimum-lot
section falls through to): the single-trade cap, the minimum edge and the
minimum confidence, run against the possibly updated signal. -/
def finalChecks (cfg : Config) (max_single : ℚ) (signal₂ : TradeSignal) :
    (Bool × Reason) × TradeSignal :=
  if max_single + 1/100 < signal₂.position_size then
    ((false, Reason.singleTradeLimit), signal₂)
  else if signal₂.edge < cfg.mispricing_threshold then
    ((false, Reason.edgeTooLow), signal₂)
  else if signal₂.confidence < 55/100 then
    ((false, Reason.confidenceTooLow), signal₂)
  else ((true, Reason.approved), signal₂)

/-- `RiskManager.is_trade_allowed`.  The returned signal reflects the
in-place update of `signal.position_size` the minimum-lot section may
perform (`signal.position_size = required_size`). -/
def isTradeAllowed (cfg : Config) (now : ℚ) (st : State) (signal : TradeSignal)
    (balance total_exposure : ℚ) : (Bool × Reason) × TradeSignal :=
  let st := maybeResetDaily now st
  if balance ≤ cfg.survival_balance then ((false, Reason.survivalMode), signal)
  else if cfg.daily_loss_limit ≤ st.daily_loss then ((false, Reason.dailyLossLimit), signal)
  else if cfg.max_daily_trades ≤ st.daily_trades then ((false, Reason.dailyTradeLimit), signal)
  else
    let available_cash := balance - total_exposure
    if available_cash < cfg.min_trade_cash then ((false, Reason.insufficientCash), signal)
    else if available_cash < signal.position_size then ((false, Reason.sizeOverAvailable), signal)
    else
      let max_single := balance * cfg.max_kelly_fraction
      if 0 < signal.entry_price then
        if signal.position_size / signal.entry_price < 5 then
          if max_single + 5/100 < 5 * signal.entry_price then
            ((false, Reason.minLotTooBig), signal)
          else finalChecks cfg max_single { signal with position_size := 5 * signal.entry_price }
        else finalChecks cfg max_single signal
      else finalChecks cfg max_single signal

end Risk

/-! ## Position ledger — `src/trading/positions.py` -/

/-- Association-list model of a Python dict keyed by market id:
lookup of the binding for a key. -/
def dictLookup {α : Type} : List (String × α) → String → Option α
  | [], _ => none
  | (k', v) :: rest, k => if k' = k then some v else dictLookup rest k

/-- Dict assignment `d[k] = v`: replaces the binding in place when the key
is present, appends it otherwise. -/
def dictInsert {α : Type} : List (String × α) → String → α → List (String × α)
  | [], k, v => [(k, v)]
  | (k', v') :: rest, k, v =>
    if k' = k then (k, v) :: rest else (k', v') :: dictInsert rest k v

/-- Dict removal `d.pop(k, None)`: drops the binding for the key.  (A Python
dict never holds two bindings for one key, so dropping every binding for
the key is the same operation.) -/
def dictErase {α : Type} (l : List (String × α)) (k : String) : List (String × α) :=
  l.filter fun kv => kv.1 ≠ k

namespace Ledger

/-- The `Position` dataclass. -/
structure Position where
  market_id : String
  question : String
  token_side : TokenSide
  entry_price : ℚ
  shares : ℚ
  cost_basis : ℚ
  current_price : ℚ
  token_id : String
  unrealized_pnl : ℚ
  pnl_pct : ℚ
  opened_at : ℚ
deriving DecidableEq, Repr

/-- `Position.update_price`. -/
def updatePrice (p : Position) (new_price : ℚ) : Position :=
  let current_value := p.shares * new_price
  let unrealized := current_value - p.cost_basis
  { p with
      current_price := new_price
      unrealized_pnl := unrealized
      pnl_pct := if 0 < p.cost_basis then unrealized / p.cost_basis else 0 }

/-- The `ClosedPosition` dataclass. -/
structure ClosedPosition where
  market_id : String
  question : String
  token_side : TokenSide
  entry_price : ℚ
  exit_price : ℚ
  shares : ℚ
  realized_pnl : ℚ
  pnl_pct : ℚ
  hold_time : ℚ
deriving DecidableEq, Repr

/-- The `ExecutedOrder` dataclass of `src/trading/executor.py` (the fields
`open_position` reads). -/
structure ExecutedOrder where
  order_id : String
  market_id : String
  question : String
  side : OrderSide
  token_side : TokenSide
  price : ℚ
  size : ℚ
  shares : ℚ
deriving DecidableEq, Repr

/-- In-memory state of `PositionTracker` (persistence is I/O and out of
the model). -/
structure TrackerState where
  open_positions : List (String × Position)
  closed_positions : List ClosedPosition
  total_realized_pnl : ℚ
  daily_pnl : ℚ
deriving DecidableEq, Repr

/-- The `Position` built by `PositionTracker.open_position`. -/
def mkPosition (order : ExecutedOrder) (token_id : String) (now : ℚ) : Position :=
  { market_id := order.market_id
    question := order.question
    token_side := order.token_side
    entry_price := order.price
    shares := order.shares
    cost_basis := order.size
    current_price := order.price
    token_id := token_id
    unrealized_pnl := 0
    pnl_pct := 0
    opened_at := now }

/-- `PositionTracker.open_position`: builds the position and assigns
`self.open_positions[order.market_id] = position` unconditionally. -/
def openPosition (st : TrackerState) (order : ExecutedOrder) (token_id : String)
    (now : ℚ) : Position × TrackerState :=
  let position := mkPosition order token_id now
  (position, { st with open_positions := dictInsert st.open_positions order.market_id position })

/-- `PositionTracker.close_position`: pops the position (returning `None`
when the market has no open position), appends the `ClosedPosition` and
accumulates realized PnL. -/
def closePosition (st : TrackerState) (market_id : String) (exit_price now : ℚ) :
    Option ClosedPosition × TrackerState :=
  match dictLookup st.open_positions market_id with
  | none => (none, st)
  | some position =>
    let realized_pnl := (exit_price - position.entry_price) * position.shares
    let pnl_pct :=
      if 0 < position.entry_price then (exit_price - position.entry_price) / position.entry_price
      else 0
    let closed : ClosedPosition :=
      { market_id := market_id
        question := position.question
        token_side := position.token_side
        entry_price := position.entry_price
        exit_price := exit_price
        shares := position.shares
        realized_pnl := realized_pnl
        pnl_pct := pnl_pct
        hold_time := now - position.opened_at }
    (some closed,
      { open_positions := dictErase st.open_positions market_id
        closed_positions := st.closed_positions ++ [closed]
        total_realized_pnl := st.total_realized_pnl + realized_pnl
        daily_pnl := st.daily_pnl + realized_pnl })

/-- Exit-trigger tags produced by the scans. -/
inductive ExitReason
  | stopLoss
  | takeProfit
  | staleExit
deriving DecidableEq, Repr

/-- One entry of the list `check_stop_loss_take_profit` (or the stale-exit
scan of `main.py`) asks the caller to close. -/
structure ExitDirective where
  market_id : String
  token_id : String
  shares : ℚ
  price : ℚ
  reason : ExitReason
deriving DecidableEq, Repr

/-- `PositionTracker.check_stop_loss_take_profit`: every open position with
a refreshed price is updated, then flagged STOP_LOSS when
`pnl_pct ≤ -stop_loss_pct`, else TAKE_PROFIT when
`pnl_pct ≥ take_profit_pct`.  Returns the updated positions together with
the close directives.  No other trigger exists in this scan. -/
def checkStopLossTakeProfit (stop_loss_pct take_profit_pct : ℚ)
    (prices : List (String × ℚ)) :
    List (String × Position) → List (String × Position) × List ExitDirective
  | [] => ([], [])
  | (mid, pos) :: rest =>
    let tail := checkStopLossTakeProfit stop_loss_pct take_profit_pct prices rest
    match dictLookup prices mid with
    | none => ((mid, pos) :: tail.1, tail.2)
    | some new_price =>
      let pos' := updatePrice pos new_price
      if pos'.pnl_pct ≤ -stop_loss_pct then
        ((mid, pos') :: tail.1,
          { market_id := mid, token_id := pos'.token_id, shares := pos'.shares,
            price := new_price, reason := ExitReason.stopLoss } :: tail.2)
      else if take_profit_pct ≤ pos'.pnl_pct then
        ((mid, pos') :: tail.1,
          { market_id := mid, token_id := pos'.token_id, shares := pos'.shares,
            price := new_price, reason := ExitReason.takeProfit } :: tail.2)
      else ((mid, pos') :: tail.1, tail.2)

/-- The stale-position scan of `main.py` (the `stale_exits` loop): flags a
position whose age is at least 4 hours and whose PnL fraction lies in
`[-0.02, 0.03]`. -/
def staleScan (now : ℚ) (prices : List (String × ℚ))
    (positions : List (String × Position)) : List ExitDirective :=
  positions.filterMap fun mp =>
    match dictLookup prices mp.1 with
    | none => none
    | some price =>
      let age_hours := (now - mp.2.opened_at) / 3600
      let pnl_pct : ℚ :=
        if (0:ℚ) < mp.2.entry_price then (price - mp.2.entry_price) / mp.2.entry_price else 0
      if 4 ≤ age_hours ∧ -(2/100) ≤ pnl_pct ∧ pnl_pct ≤ 3/100 then
        some { market_id := mp.1, token_id := mp.2.token_id, shares := mp.2.shares,
               price := price, reason := ExitReason.staleExit }
      else none

/-- The zombie-cleanup scan of `main.py` (the `zombies` loop): collects the
market ids whose refreshed price is below `0.002` and whose position is
strictly older than 3600 seconds. -/
def zombieScan (now : ℚ) (prices : List (String × ℚ))
    (positions : List (String × Position)) : List String :=
  positions.filterMap fun mp =>
    match dictLookup prices mp.1 with
    | none => none
    | some price =>
      if price < 2/1000 ∧ 3600 < now - mp.2.opened_at then some mp.1 else none

end Ledger

/-! ## Shared concrete data for the claim theorems -/

/-- The `settings` defaults of `src/config.py` relevant to the risk gate
(`survival_balance = 5`, `daily_loss_limit = 5`, `max_daily_trades = 30`,
`min_trade_cash = 2`, `max_kelly_fraction = 0.05`,
`mispricing_threshold = 0.08`). -/
def defaultRiskConfig : Risk.Config :=
  { survival_balance := 5
    daily_loss_limit := 5
    max_daily_trades := 30
    min_trade_cash := 2
    max_kelly_fraction := 1/20
    mispricing_threshold := 8/100 }

/-- A concrete `TradeSignal` in the shape of the unit tests'
`_make_signal`, with a $2 position at entry price $0.50 (4 estimated
shares, below the 5-share exchange minimum). -/
def sampleSignal : TradeSignal :=
  { market_id := "test"
    question := "Test?"
    category := "general"
    direction := Direction.buyYes
    fair_value := 7/10
    market_price := 55/100
    edge := 1/10
    confidence := 3/4
    position_size := 2
    shares := 4
    price := 1/2
    token_side := TokenSide.yes
    reasoning := "test"
    kelly_fraction := 3/100
    api_cost := 0
    slug := ""
    deepseek_fair_value := 0
    consensus := true
    combined_fair_value := 7/10
    entry_price := 1/2 }

/-! ## Claim theorems -/

/-- C1: with the configured `max_kelly_fraction = 0.05` and
`kelly_multiplier = 0.2`, at `fair_value = 0.6`, `market_price = 0.5`,
`balance = 100`, `BUY_YES`, `confidence = 0.7`: the code sizes the position
from the raw Kelly fraction capped at the maximum
(`100 × min(0.1, 0.05) = $5`), whereas the claimed rule
`positionSizeUsd = balance × min(rawKelly × Π(multipliers), max)` gives
`100 × min(0.1 × 0.2, 0.05) = $2`.  The multipliers the code computes (and
whose size effect its own log lines announce) never reach the position
size. -/
theorem c1_position_size_ignores_multipliers :
    (Kelly.calculate ⟨5/100, 2/10⟩ (6/10) (1/2) 100 Direction.buyYes (7/10)
        9999).position_size = 5
    ∧ Kelly.specPositionSize ⟨5/100, 2/10⟩ (6/10) (1/2) 100 Direction.buyYes (7/10) 9999 = 2
    ∧ (5 : ℚ) ≠ 2 := by
  refine ⟨?_, ?_, by norm_num⟩
  · norm_num [Kelly.calculate, Kelly.survivalMultiplier, Kelly.timeBonus, roundTo, roundQ]
  · norm_num [Kelly.specPositionSize, Kelly.survivalMultiplier, Kelly.timeBonus]

/-- C2: at the unit tests' own configuration (`max_fraction = 0.06`,
`multiplier = 0.5`) and input (`fair_value = 0.95`, `market_price = 0.30`,
`balance = 1000`, `BUY_YES`, `confidence = 0.95`), the reported
`adjusted_fraction` is `0.3343 > 0.06`: the cap is applied to the raw
Kelly fraction only, never to the adjusted fraction, and
`MispricingStrategy.analyze_market` copies the uncapped value into
`TradeSignal.kelly_fraction`. -/
theorem c2_adjusted_fraction_exceeds_cap :
    (Kelly.calculate ⟨6/100, 1/2⟩ (95/100) (3/10) 1000 Direction.buyYes (95/100)
        9999).adjusted_fraction = 3343/10000
    ∧ (6 : ℚ)/100 < 3343/10000
    ∧ ((Mispricing.analyzeMarketSizing (6/100) ⟨"m1", "q", "general", "s"⟩
          Direction.buyYes (95/100) (3/10) (65/100) (95/100) "r" 0 0 true (95/100)
          (Kelly.calculate ⟨6/100, 1/2⟩ (95/100) (3/10) 1000 Direction.buyYes (95/100) 9999)
          1000 (1/2)).map TradeSignal.kelly_fraction) = some (3343/10000) := by
  have hcalc :
      (Kelly.calculate ⟨6/100, 1/2⟩ (95/100) (3/10) 1000 Direction.buyYes (95/100)
        9999).adjusted_fraction = 3343/10000 := by
    norm_num [Kelly.calculate, Kelly.survivalMultiplier, Kelly.timeBonus, roundTo, roundQ]
  refine ⟨hcalc, by norm_num, ?_⟩
  norm_num [Mispricing.analyzeMarketSizing, Mispricing.confidenceBoost, Kelly.calculate, Kelly.survivalMultiplier,
    Kelly.timeBonus, roundTo, roundQ]

/-- The three positions of the repository's own regression script
`scripts/verify_stagnation.py`, at clock time `now = 10^6` seconds: a flat
position opened 8 days ago, a flat one opened 2 days ago, and a profitable
one opened 8 days ago. -/
def stagnationPositions : List (String × Ledger.Position) :=
  [ ("stagnant_1",
      { market_id := "stagnant_1", question := "Stagnant Market",
        token_side := TokenSide.yes, entry_price := 1/2, shares := 10,
        cost_basis := 5, current_price := 1/2, token_id := "123",
        unrealized_pnl := 0, pnl_pct := 1/100, opened_at := 1000000 - 8 * 86400 }),
    ("fresh_1",
      { market_id := "fresh_1", question := "Fresh Market",
        token_side := TokenSide.yes, entry_price := 1/2, shares := 10,
        cost_basis := 5, current_price := 1/2, token_id := "456",
        unrealized_pnl := 0, pnl_pct := 1/100, opened_at := 1000000 - 2 * 86400 }),
    ("profitable_old",
      { market_id := "profitable_old", question := "Profitable Old",
        token_side := TokenSide.yes, entry_price := 1/2, shares := 10,
        cost_basis := 5, current_price := 11/20, token_id := "789",
        unrealized_pnl := 1/2, pnl_pct := 1/10, opened_at := 1000000 - 8 * 86400 }) ]

/-- The refreshed prices of the same regression script. -/
def stagnationPrices : List (String × ℚ) :=
  [("stagnant_1", 505/1000), ("fresh_1", 505/1000), ("profitable_old", 55/100)]

/-- C3: on the regression script's scenario (stop-loss 15 %, take-profit
40 %), the exit scan `check_stop_loss_take_profit` produces NO directive at
all — in particular no STAGNATION directive for the 8-day-old flat position
the script asserts must be flagged — while the hardcoded stale scan of
`main.py` (age ≥ 4 h, PnL in `[-0.02, 0.03]`) flags both flat positions,
including the 2-day-old one the claim says must not be flagged. -/
theorem c3_stagnation_trigger_missing :
    (Ledger.checkStopLossTakeProfit (15/100) (40/100) stagnationPrices
        stagnationPositions).2 = []
    ∧ (Ledger.staleScan 1000000 stagnationPrices stagnationPositions).map
        Ledger.ExitDirective.market_id = ["stagnant_1", "fresh_1"] := by
  constructor
  · simp only [Ledger.checkStopLossTakeProfit, Ledger.updatePrice, dictLookup,
      stagnationPrices, stagnationPositions, String.reduceEq, if_false, if_true,
      reduceIte]
    norm_num
  · simp only [Ledger.staleScan, dictLookup, stagnationPrices, stagnationPositions,
      String.reduceEq, if_false, if_true, reduceIte, List.filterMap]
    norm_num

/-- C4 counterexample: a position two hours old (7200 s) whose price has
collapsed to $0.001 IS collected by the zombie scan of `main.py`, although
its age is far below the one day the claim requires (the code's own
comment and threshold use one hour, not one day). -/
theorem c4_zombie_age_counterexample :
    Ledger.zombieScan 1000000 [("m1", 1/1000)]
        [("m1",
          { market_id := "m1", question := "q", token_side := TokenSide.yes,
            entry_price := 1/10, shares := 10, cost_basis := 1,
            current_price := 1/1000, token_id := "t", unrealized_pnl := 0,
            pnl_pct := 0, opened_at := 1000000 - 7200 })] = ["m1"]
    ∧ ((1000000 : ℚ) - (1000000 - 7200)) / 86400 < 1 := by
  constructor
  · norm_num [Ledger.zombieScan, dictLookup, List.filterMap]
  · norm_num

/-- C4 (amended): a market id is collected by the zombie scan exactly when
it holds an open position whose refreshed price is below $0.002 and which
was opened strictly more than one hour (3600 s) before the scan. -/
theorem c4_zombie_flag_iff (now : ℚ) (prices : List (String × ℚ))
    (positions : List (String × Ledger.Position)) (mid : String) :
    mid ∈ Ledger.zombieScan now prices positions
      ↔ ∃ p : Ledger.Position, (mid, p) ∈ positions
          ∧ ∃ price : ℚ, dictLookup prices mid = some price
              ∧ price < 2/1000 ∧ 3600 < now - p.opened_at := by
  unfold Ledger.zombieScan
  rw [List.mem_filterMap]
  constructor
  · rintro ⟨⟨mid', p⟩, hmem, hsome⟩
    rcases hlook : dictLookup prices mid' with _ | price
    · rw [hlook] at hsome
      exact absurd hsome (by simp)
    · rw [hlook] at hsome
      dsimp only at hsome
      by_cases hc : price < 2/1000 ∧ 3600 < now - p.opened_at
      · rw [if_pos hc] at hsome
        obtain rfl : mid' = mid := by simpa using hsome
        exact ⟨p, hmem, price, hlook, hc⟩
      · rw [if_neg hc] at hsome
        exact absurd hsome (by simp)
  · rintro ⟨p, hmem, price, hlook, h₁, h₂⟩
    refine ⟨(mid, p), hmem, ?_⟩
    dsimp only
    rw [hlook]
    dsimp only
    rw [if_pos ⟨h₁, h₂⟩]

/-- C5: whenever the balance is at or below the survival floor,
`is_trade_allowed` rejects with the survival-mode reason — for every
configuration, counter state, clock, signal and exposure — and returns the
signal untouched: the survival check is the first check and short-circuits
every later one. -/
theorem c5_survival_floor_rejects_first (cfg : Risk.Config) (now : ℚ)
    (st : Risk.State) (signal : TradeSignal) (balance total_exposure : ℚ)
    (h : balance ≤ cfg.survival_balance) :
    Risk.isTradeAllowed cfg now st signal balance total_exposure
      = ((false, Risk.Reason.survivalMode), signal) := by
  unfold Risk.isTradeAllowed
  rw [if_pos h]

/-- C5 witness: the survival rejection at the defaults
(`survival_balance = $5`) with a $3 balance. -/
theorem c5_survival_floor_witness :
    Risk.isTradeAllowed defaultRiskConfig 0 ⟨0, 0, 0⟩ sampleSignal 3 0
      = ((false, Risk.Reason.survivalMode), sampleSignal) :=
  c5_survival_floor_rejects_first defaultRiskConfig 0 ⟨0, 0, 0⟩ sampleSignal 3 0
    (by norm_num [defaultRiskConfig])

/-- C6 counterexample: on `sampleSignal` ($2 position at entry price
$0.50, i.e. 4 estimated shares) with a $100 balance at the default
configuration, the admission check rewrites `position_size` to
`5 × 0.50 = $2.50` in place: the signal is not the same after the call. -/
theorem c6_signal_mutated_counterexample :
    ((Risk.isTradeAllowed defaultRiskConfig 0 ⟨0, 0, 0⟩ sampleSignal 100 0).2).position_size
        = 5/2
    ∧ sampleSignal.position_size = 2
    ∧ ((5 : ℚ)/2 ≠ 2) := by
  refine ⟨?_, by norm_num [sampleSignal], by norm_num⟩
  simp only [Risk.isTradeAllowed, Risk.finalChecks, Risk.maybeResetDaily,
    defaultRiskConfig, sampleSignal]
  norm_num

/-- C6 (amended): the admission check preserves every field of the signal
except possibly `position_size`, which it either leaves alone or overwrites
with `5 × entry_price` (the exchange's five-share minimum lot). -/
theorem c6_mutation_confined_to_position_size (cfg : Risk.Config) (now : ℚ)
    (st : Risk.State) (signal : TradeSignal) (balance total_exposure : ℚ) :
    (Risk.isTradeAllowed cfg now st signal balance total_exposure).2 = signal
    ∨ (Risk.isTradeAllowed cfg now st signal balance total_exposure).2
        = { signal with position_size := 5 * signal.entry_price } := by
  have hfinal : ∀ (m : ℚ) (s : TradeSignal), (Risk.finalChecks cfg m s).2 = s := by
    intro m s
    unfold Risk.finalChecks
    split
    · rfl
    · split
      · rfl
      · split <;> rfl
  simp only [Risk.isTradeAllowed]
  split
  · exact Or.inl rfl
  · split
    · exact Or.inl rfl
    · split
      · exact Or.inl rfl
      · split
        · exact Or.inl rfl
        · split
          · exact Or.inl rfl
          · split
            · split
              · split
                · exact Or.inl rfl
                · exact Or.inr (hfinal _ _)
              · exact Or.inl (hfinal _ _)
            · exact Or.inl (hfinal _ _)

theorem dictLookup_dictInsert_self {α : Type} (l : List (String × α)) (k : String)
    (v : α) : dictLookup (dictInsert l k v) k = some v := by
  induction l with
  | nil => simp [dictInsert, dictLookup]
  | cons kv rest ih =>
    obtain ⟨k', v'⟩ := kv
    by_cases h : k' = k
    · simp [dictInsert, dictLookup, h]
    · simp [dictInsert, dictLookup, h, ih]

theorem mem_keys_dictInsert {α : Type} (l : List (String × α)) (k a : String)
    (v : α) :
    a ∈ (dictInsert l k v).map Prod.fst ↔ a = k ∨ a ∈ l.map Prod.fst := by
  induction l with
  | nil => simp [dictInsert]
  | cons kv rest ih =>
    obtain ⟨k', v'⟩ := kv
    by_cases h : k' = k
    · subst h
      simp [dictInsert]
    · simp [dictInsert, h, ih]
      tauto

theorem dictInsert_keys_nodup {α : Type} (l : List (String × α)) (k : String)
    (v : α) (h : (l.map Prod.fst).Nodup) :
    ((dictInsert l k v).map Prod.fst).Nodup := by
  induction l with
  | nil => simp [dictInsert]
  | cons kv rest ih =>
    obtain ⟨k', v'⟩ := kv
    simp only [List.map_cons, List.nodup_cons] at h
    by_cases hk : k' = k
    · subst hk
      simpa [dictInsert, List.nodup_cons] using h
    · have := ih h.2
      simp only [dictInsert, hk, if_false, List.map_cons, List.nodup_cons]
      refine ⟨?_, this⟩
      rw [mem_keys_dictInsert]
      push_neg
      exact ⟨hk, h.1⟩

/-- First order filled on market `mkt1` ($5 at $0.50). -/
def overwriteOrder₁ : Ledger.ExecutedOrder :=
  { order_id := "ORD-1", market_id := "mkt1", question := "Test?",
    side := OrderSide.buy, token_side := TokenSide.yes,
    price := 1/2, size := 10, shares := 20 }

/-- Second order filled on the same market `mkt1` ($7 at $0.70). -/
def overwriteOrder₂ : Ledger.ExecutedOrder :=
  { order_id := "ORD-2", market_id := "mkt1", question := "Test?",
    side := OrderSide.buy, token_side := TokenSide.yes,
    price := 7/10, size := 7, shares := 10 }

/-- C7 counterexample: opening a second position on a market that already
has one does not reject the call — the new position silently replaces the
old one (the existing position is not left unchanged). -/
theorem c7_open_position_overwrites :
    dictLookup
        ((Ledger.openPosition
            ((Ledger.openPosition ⟨[], [], 0, 0⟩ overwriteOrder₁ "t1" 100).2)
            overwriteOrder₂ "t2" 200).2).open_positions "mkt1"
      = some (Ledger.mkPosition overwriteOrder₂ "t2" 200)
    ∧ Ledger.mkPosition overwriteOrder₂ "t2" 200
        ≠ Ledger.mkPosition overwriteOrder₁ "t1" 100 := by
  constructor
  · simp [Ledger.openPosition, Ledger.mkPosition, dictInsert, dictLookup,
      overwriteOrder₁, overwriteOrder₂]
  · simp only [Ledger.mkPosition, overwriteOrder₁, overwriteOrder₂, ne_eq,
      Ledger.Position.mk.injEq, not_and]
    intro _ _ _ h
    norm_num at h

/-- C7 (amended): `open_position` keys the new position by the order's
market id — assignment into the dict replaces any existing binding, so
after the call the map holds the freshly built position for that market —
and dict assignment preserves key uniqueness, so at most one open position
per market continues to exist. -/
theorem c7_open_position_keyed_by_market (st : Ledger.TrackerState)
    (order : Ledger.ExecutedOrder) (token_id : String) (now : ℚ) :
    dictLookup ((Ledger.openPosition st order token_id now).2).open_positions
        order.market_id = some (Ledger.mkPosition order token_id now)
    ∧ ((st.open_positions.map Prod.fst).Nodup →
        ((((Ledger.openPosition st order token_id now).2).open_positions.map
            Prod.fst).Nodup)) := by
  constructor
  · simp [Ledger.openPosition, dictLookup_dictInsert_self]
  · intro h
    simpa [Ledger.openPosition] using
      dictInsert_keys_nodup st.open_positions order.market_id
        (Ledger.mkPosition order token_id now) h

/-- C7 witness: the amended theorem at the empty tracker state and a
concrete order. -/
theorem c7_open_position_witness :
    dictLookup ((Ledger.openPosition ⟨[], [], 0, 0⟩ overwriteOrder₁ "t1"
          100).2).open_positions overwriteOrder₁.market_id
      = some (Ledger.mkPosition overwriteOrder₁ "t1" 100)
    ∧ ((((Ledger.openPosition ⟨[], [], 0, 0⟩ overwriteOrder₁ "t1"
          100).2).open_positions.map Prod.fst).Nodup) := by
  have h := c7_open_position_keyed_by_market ⟨[], [], 0, 0⟩ overwriteOrder₁ "t1" 100
  exact ⟨h.1, h.2 (by simp)⟩

/-- C8: with a secondary estimate present, `_check_consensus` returns SKIP
whenever the two estimates sit on different sides of the market price; when
the directions match it returns TRADE for a probability gap of at most
0.15, REDUCE for a gap in (0.15, 0.30], SKIP beyond 0.30, and in the TRADE
and REDUCE cases reports the confidence-weighted average of the two
probabilities (to the four decimals the code rounds to). -/
theorem c8_consensus_rules (cp cc dp dc mp : ℚ) :
    (¬ ((mp < cp) ↔ (mp < dp)) →
        (Consensus.checkConsensus cp cc dp dc mp).recommendation
            = Consensus.Recommendation.skip
        ∧ (Consensus.checkConsensus cp cc dp dc mp).consensus = false)
    ∧ (((mp < cp) ↔ (mp < dp)) → |cp - dp| ≤ 15/100 →
        (Consensus.checkConsensus cp cc dp dc mp).recommendation
            = Consensus.Recommendation.trade
        ∧ (0 < cc + dc →
            (Consensus.checkConsensus cp cc dp dc mp).combined_probability
              = roundTo 4 ((cp * cc + dp * dc) / (cc + dc))))
    ∧ (((mp < cp) ↔ (mp < dp)) → 15/100 < |cp - dp| → |cp - dp| ≤ 30/100 →
        (Consensus.checkConsensus cp cc dp dc mp).recommendation
            = Consensus.Recommendation.reduce
        ∧ (0 < cc + dc →
            (Consensus.checkConsensus cp cc dp dc mp).combined_probability
              = roundTo 4 ((cp * cc + dp * dc) / (cc + dc))))
    ∧ (((mp < cp) ↔ (mp < dp)) → 30/100 < |cp - dp| →
        (Consensus.checkConsensus cp cc dp dc mp).recommendation
            = Consensus.Recommendation.skip
        ∧ (Consensus.checkConsensus cp cc dp dc mp).consensus = false) := by
  refine ⟨?_, ?_, ?_, ?_⟩
  · intro hdir
    have hd : ¬((if mp < cp then TokenSide.yes else TokenSide.no)
        = (if mp < dp then TokenSide.yes else TokenSide.no)) := by
      by_cases h1 : mp < cp <;> by_cases h2 : mp < dp <;> simp [h1, h2]
      · exact absurd (Iff.intro (fun _ => h2) (fun _ => h1)) hdir
      · exact absurd (Iff.intro (fun h => absurd h h1) (fun h => absurd h h2)) hdir
    constructor <;> simp [Consensus.checkConsensus, hd]
  · intro hdir hle
    have hd : (if mp < cp then TokenSide.yes else TokenSide.no)
        = (if mp < dp then TokenSide.yes else TokenSide.no) := by
      by_cases h1 : mp < cp
      · rw [if_pos h1, if_pos (hdir.mp h1)]
      · rw [if_neg h1, if_neg (fun h => h1 (hdir.mpr h))]
    constructor
    · simp [Consensus.checkConsensus, hd, hle]
    · intro h5
      simp [Consensus.checkConsensus, hd, hle, h5]
  · intro hdir hgt hle
    have hd : (if mp < cp then TokenSide.yes else TokenSide.no)
        = (if mp < dp then TokenSide.yes else TokenSide.no) := by
      by_cases h1 : mp < cp
      · rw [if_pos h1, if_pos (hdir.mp h1)]
      · rw [if_neg h1, if_neg (fun h => h1 (hdir.mpr h))]
    constructor
    · simp [Consensus.checkConsensus, hd, not_le.mpr hgt, hle]
    · intro h5
      simp [Consensus.checkConsensus, hd, not_le.mpr hgt, hle, h5]
  · intro hdir hgt
    have hd : (if mp < cp then TokenSide.yes else TokenSide.no)
        = (if mp < dp then TokenSide.yes else TokenSide.no) := by
      by_cases h1 : mp < cp
      · rw [if_pos h1, if_pos (hdir.mp h1)]
      · rw [if_neg h1, if_neg (fun h => h1 (hdir.mpr h))]
    have h15 : ¬(|cp - dp| ≤ 15/100) := not_le.mpr (lt_trans (by norm_num) hgt)
    constructor <;> simp [Consensus.checkConsensus, hd, h15, not_le.mpr hgt]

/-- C8 witness: Claude 0.70 at confidence 0.80 against DeepSeek 0.60 at
confidence 0.60 on a market priced 0.50 — same side, gap 0.10 ≤ 0.15 —
yields TRADE with the weighted average `0.92/1.4 = 0.6571...` rounded to
`0.6571`. -/
theorem c8_consensus_witness :
    (Consensus.checkConsensus (7/10) (8/10) (6/10) (6/10) (1/2)).recommendation
        = Consensus.Recommendation.trade
    ∧ (Consensus.checkConsensus (7/10) (8/10) (6/10) (6/10) (1/2)).combined_probability
        = 6571/10000 := by
  have h := c8_consensus_rules (7/10) (8/10) (6/10) (6/10) (1/2)
  have h2 := h.2.1 (by norm_num) (by norm_num [abs_le])
  refine ⟨h2.1, ?_⟩
  rw [h2.2 (by norm_num)]
  norm_num [roundTo, roundQ]

theorem dictLookup_dictErase {α : Type} (l : List (String × α)) (k : String) :
    dictLookup (dictErase l k) k = none := by
  induction l with
  | nil => rfl
  | cons kv rest ih =>
    obtain ⟨k', v'⟩ := kv
    by_cases h : k' = k
    · simpa [dictErase, List.filter, h] using ih
    · simpa [dictErase, List.filter, dictLookup, h] using ih

theorem closePosition_of_lookup_none (st : Ledger.TrackerState) (mid : String)
    (p n : ℚ) (h : dictLookup st.open_positions mid = none) :
    Ledger.closePosition st mid p n = (none, st) := by
  unfold Ledger.closePosition
  rw [h]

theorem closePosition_clears_market (st : Ledger.TrackerState) (mid : String)
    (p n : ℚ) :
    dictLookup ((Ledger.closePosition st mid p n).2).open_positions mid = none := by
  rcases h : dictLookup st.open_positions mid with _ | pos
  · rw [closePosition_of_lookup_none st mid p n h]
    exact h
  · unfold Ledger.closePosition
    rw [h]
    exact dictLookup_dictErase st.open_positions mid

/-- C9: a second `close_position` on the same market id is a no-op: it
returns `None` and leaves the tracker state — closed-position log and
total realized PnL included — exactly as the first close left it; and a
close on a market with no open position returns `None` with the state
untouched. -/
theorem c9_close_position_idempotent (st : Ledger.TrackerState) (mid : String)
    (p₁ p₂ n₁ n₂ : ℚ) :
    Ledger.closePosition ((Ledger.closePosition st mid p₁ n₁).2) mid p₂ n₂
      = (none, (Ledger.closePosition st mid p₁ n₁).2)
    ∧ (dictLookup st.open_positions mid = none →
        Ledger.closePosition st mid p₁ n₁ = (none, st)) := by
  constructor
  · exact closePosition_of_lookup_none _ mid p₂ n₂
      (closePosition_clears_market st mid p₁ n₁)
  · exact closePosition_of_lookup_none st mid p₁ n₁

/-- C9 witness: both no-op behaviours at the empty tracker state and
market `mkt1`. -/
theorem c9_close_position_witness :
    Ledger.closePosition ((Ledger.closePosition ⟨[], [], 0, 0⟩ "mkt1" (3/4)
          10).2) "mkt1" (1/2) 20
      = (none, (Ledger.closePosition ⟨[], [], 0, 0⟩ "mkt1" (3/4) 10).2)
    ∧ Ledger.closePosition ⟨[], [], 0, 0⟩ "mkt1" (3/4) 10 = (none, ⟨[], [], 0, 0⟩) := by
  have h := c9_close_position_idempotent ⟨[], [], 0, 0⟩ "mkt1" (3/4) (1/2) 10 20
  exact ⟨h.1, h.2 rfl⟩

theorem roundTo_two_le_of_le (x c : ℚ) (h : x ≤ c) : roundTo 2 x ≤ c + 1/200 :=
  le_trans (roundTo_two_le x) (by linarith)

/-- C10 counterexample: at cash $100.12 with `max_kelly_fraction = 0.05`,
the caps clamp the size to `100.12 × 0.05 = $5.006`, but the final
rounding to whole cents emits a signal of `position_size = $5.01`,
strictly above `cash × max_kelly_fraction`. -/
theorem c10_rounding_exceeds_cap :
    ((Mispricing.analyzeMarketSizing (1/20) ⟨"m1", "q", "general", "s"⟩
          Direction.buyYes (6/10) (1/2) (1/10) (7/10) "r" 0 0 true (6/10)
          (Kelly.calculate ⟨1/20, 2/10⟩ (6/10) (1/2) (10012/100) Direction.buyYes
            (7/10) 9999)
          (10012/100) (1/2)).map TradeSignal.position_size) = some (501/100)
    ∧ (10012 : ℚ)/100 * (1/20) < 501/100 := by
  constructor
  · norm_num [Mispricing.analyzeMarketSizing, Mispricing.confidenceBoost, Kelly.calculate,
      Kelly.survivalMultiplier, Kelly.timeBonus, roundTo, roundQ]
  · norm_num

/-- C10 (amended): every signal the sizing tail emits has
`position_size ≥ $1`, and `position_size` exceeds neither 20 % of cash nor
`cash × max_kelly_fraction` by more than the half-cent the final rounding
to whole cents can add; a size below $1 after the caps is not emitted at
all. -/
theorem c10_signal_size_bounds (maxk : ℚ) (mkt : Mispricing.MarketInfo)
    (dir : Direction) (fv yp e conf : ℚ) (rs : String) (ac dsfv : ℚ)
    (cons : Bool) (cfv : ℚ) (kr : Kelly.Result) (cash km : ℚ) (s : TradeSignal)
    (h : Mispricing.analyzeMarketSizing maxk mkt dir fv yp e conf rs ac dsfv
        cons cfv kr cash km = some s) :
    1 ≤ s.position_size
    ∧ s.position_size ≤ cash * (20/100) + 1/200
    ∧ s.position_size ≤ cash * maxk + 1/200 := by
  simp only [Mispricing.analyzeMarketSizing] at h
  split at h
  · exact absurd h (by simp)
  · rename_i hge
    rw [Option.some_inj] at h
    subst h
    push_neg at hge
    refine ⟨one_le_roundTo_two _ hge, ?_, ?_⟩
    · exact roundTo_two_le_of_le _ _ (le_trans (min_le_left _ _) (min_le_right _ _))
    · exact roundTo_two_le_of_le _ _ (min_le_right _ _)

/-- The signal the sizing tail emits at cash $100 for a $5 Kelly result at
price $0.50 (used to instantiate the C10 bound). -/
def boundsWitnessSignal : TradeSignal :=
  { market_id := "m1"
    question := "q"
    category := "general"
    direction := Direction.buyYes
    fair_value := 6/10
    market_price := 1/2
    edge := 1/10
    confidence := 7/10
    position_size := 5
    shares := 10
    price := 1/2
    token_side := TokenSide.yes
    reasoning := "r"
    kelly_fraction := 1/50
    api_cost := 0
    slug := "s"
    deepseek_fair_value := 0
    consensus := true
    combined_fair_value := 6/10
    entry_price := 1/2 }

/-- C10 witness: the size bounds at cash $100, `max_kelly_fraction = 0.05`
and a concrete emitted signal. -/
theorem c10_signal_size_bounds_witness :
    1 ≤ boundsWitnessSignal.position_size
    ∧ boundsWitnessSignal.position_size ≤ 100 * (20/100) + 1/200
    ∧ boundsWitnessSignal.position_size ≤ 100 * (1/20) + 1/200 := by
  have h : Mispricing.analyzeMarketSizing (1/20) ⟨"m1", "q", "general", "s"⟩
      Direction.buyYes (6/10) (1/2) (1/10) (7/10) "r" 0 0 true (6/10)
      (Kelly.calculate ⟨1/20, 2/10⟩ (6/10) (1/2) 100 Direction.buyYes (7/10) 9999)
      100 (1/2) = some boundsWitnessSignal := by
    norm_num [Mispricing.analyzeMarketSizing, Mispricing.confidenceBoost, Kelly.calculate,
      Kelly.survivalMultiplier, Kelly.timeBonus, roundTo, roundQ, boundsWitnessSignal]
  exact c10_signal_size_bounds (1/20) ⟨"m1", "q", "general", "s"⟩
    Direction.buyYes (6/10) (1/2) (1/10) (7/10) "r" 0 0 true (6/10)
    (Kelly.calculate ⟨1/20, 2/10⟩ (6/10) (1/2) 100 Direction.buyYes (7/10) 9999)
    100 (1/2) boundsWitnessSignal h

end PolyBot
